import Mathlib

/-!
Verification of the Rust-Shell repository (src/main.rs): a shallow
embedding of the tokenizer (`handle_quotes`), the redirection parser
(`parse_redirection`), the path resolver (`check_cmd_in_path`), the
built-in handlers (`handle_cd`, `handle_pwd`) and the dispatcher
(`handle_cmd`), followed by theorems settling the specification claims.

Machine-level effects (OS calls, the filesystem, process spawning) are
modelled by an explicit environment record `Env`; writes to output and
error sinks become an explicit list of events, and the process-wide
`CURRENT_DIR` cell becomes an explicitly threaded string.
-/

/-! ## Tokenizer (src/main.rs, `handle_quotes`, lines 210-266) -/

/-- The mutable state of the character loop in `handle_quotes`:
the completed tokens `args`, the accumulating token `arg`, and the
three boolean flags of the scanner. -/
structure QState where
  args : List String
  arg : String
  insideSingle : Bool
  insideDouble : Bool
  backslash : Bool
deriving DecidableEq

/-- One iteration of the `for c in args_str.chars()` loop body of
`handle_quotes`, translated branch for branch from the source. -/
def handle_quotes_step (st : QState) (c : Char) : QState :=
  if !st.insideSingle && !st.insideDouble then
    if st.backslash then { st with arg := st.arg.push c, backslash := false }
    else if c = '\\' then { st with backslash := true }
    else if c = '\'' then { st with insideSingle := true }
    else if c = '"' then { st with insideDouble := true }
    else if c.isWhitespace then
      if !(st.arg = "") then { st with args := st.args ++ [st.arg], arg := "" }
      else st
    else { st with arg := st.arg.push c }
  else if st.insideSingle && c = '\'' then { st with insideSingle := false }
  else if st.insideDouble then
    if st.backslash then
      if c ≠ '$' ∧ c ≠ '"' ∧ c ≠ '\\' then
        { st with backslash := false, arg := (st.arg.push '\\').push c }
      else
        { st with backslash := false, arg := st.arg.push c }
    else if c = '\\' then { st with backslash := true }
    else if c = '"' then { st with insideDouble := false }
    else { st with arg := st.arg.push c }
  else { st with arg := st.arg.push c }

/-- `handle_quotes` of src/main.rs: fold the loop body over the
characters of the line, then push the final accumulator if non-empty. -/
def handle_quotes (s : String) : List String :=
  let st := List.foldl handle_quotes_step
    { args := [], arg := "", insideSingle := false, insideDouble := false, backslash := false }
    s.data
  if !(st.arg = "") then st.args ++ [st.arg] else st.args

/-! ## Redirection parser (src/main.rs, `parse_redirection`, lines 269-317) -/

/-- The `while i < args.len()` loop of `parse_redirection`, with the loop
state (`cmd_args`, `output_file`, `error_file`, `append_output`,
`append_error`) passed explicitly.  A matched operator with a follower
consumes two tokens; a matched operator without a follower is the last
token, so the loop simply ends (the token is neither kept nor captured);
any other token is appended to `cmd_args`. -/
def parse_go (ca : List String) (outf errf : Option String) (ao ae : Bool) :
    List String → List String × Option String × Option String × Bool × Bool
  | [] => (ca, outf, errf, ao, ae)
  | t :: rest =>
    if t = ">" ∨ t = "1>" then
      match rest with
      | f :: rest2 => parse_go ca (some f) errf ao ae rest2
      | [] => (ca, outf, errf, ao, ae)
    else if t = "2>" then
      match rest with
      | f :: rest2 => parse_go ca outf (some f) ao ae rest2
      | [] => (ca, outf, errf, ao, ae)
    else if t = ">>" ∨ t = "1>>" then
      match rest with
      | f :: rest2 => parse_go ca (some f) errf true ae rest2
      | [] => (ca, outf, errf, ao, ae)
    else if t = "2>>" then
      match rest with
      | f :: rest2 => parse_go ca outf (some f) ao true rest2
      | [] => (ca, outf, errf, ao, ae)
    else
      parse_go (ca ++ [t]) outf errf ao ae rest

/-- `parse_redirection` of src/main.rs. -/
def parse_redirection (args : List String) :
    List String × Option String × Option String × Bool × Bool :=
  parse_go [] none none false false args

/-- A token that names an output-redirection operator. -/
def IsOutOp (t : String) : Prop := t = ">" ∨ t = "1>" ∨ t = ">>" ∨ t = "1>>"

/-- A token that names an error-redirection operator. -/
def IsErrOp (t : String) : Prop := t = "2>" ∨ t = "2>>"

/-- A token that names any of the six redirection operators. -/
def IsRedirOp (t : String) : Prop := IsOutOp t ∨ IsErrOp t

instance : DecidablePred IsOutOp := fun t => by unfold IsOutOp; infer_instance
instance : DecidablePred IsErrOp := fun t => by unfold IsErrOp; infer_instance
instance : DecidablePred IsRedirOp := fun t => by unfold IsRedirOp; infer_instance

example : parse_redirection ["echo", "hi", ">", "out.txt"] =
    (["echo", "hi"], some "out.txt", none, false, false) := by decide

example : parse_redirection ["ls", "2>>", "err.log"] =
    (["ls"], none, some "err.log", false, true) := by decide

example : parse_redirection ["echo", ">>", "a", ">", "b"] =
    (["echo"], some "b", none, true, false) := by decide

example : parse_redirection ["echo", ">"] =
    (["echo"], none, none, false, false) := by decide

example : handle_quotes "echo \"a\\\"b\"" = ["echo", "a\"b"] := by decide

example : handle_quotes "echo \"a\\nb\"" = ["echo", "a\\nb"] := by decide

example : handle_quotes "echo \"\" x" = ["echo", "x"] := by decide

example : handle_quotes "echo 'a b' c" = ["echo", "a b", "c"] := by decide

/-! ## Environment model and write events

The shell talks to the operating system through a handful of calls
(`dirs::home_dir`, `env::set_current_dir`, `env::var("PATH")`,
`fs::read_dir`, opening redirection files, spawning a process).  `Env`
records the outcome of each call; writes become events tagged with the
destination they go to.  The process-wide `CURRENT_DIR` mutex cell is
threaded through as an explicit string argument and result. -/

/-- A destination of a write: the process standard streams, or a
redirection file opened with an append flag. -/
inductive Dest where
  | processStdout : Dest
  | processStderr : Dest
  | file : String → Bool → Dest
deriving DecidableEq

/-- One write, tagged with where it goes.  A `writeln!` contributes its
text with a trailing newline; a raw `write_all` contributes the bytes
as-is. -/
abbrev Event := Dest × String

/-- Outcomes of the operating-system calls the shell makes.  For
fallible calls, `none` models success (`Ok`) and `some e` models failure
with error text `e` (the payload of `e.to_string()`); `read_dir` yields
the directory entries as (file name, full path) pairs, as produced by
`entry.file_name()` and `entry.path()`. -/
structure Env where
  homeDir : Option String
  cdResult : String → Option String
  pathVar : Option String
  readDir : String → Option (List (String × String))
  openFile : String → Bool → Option String
  runResult : String → List String → Except String (String × String)

/-! ## Command namespace and built-ins
(src/main.rs, `is_builtin` lines 28-34, `handle_cd` lines 37-72,
`handle_pwd` lines 75-79, `CMD_MAP` lines 15-25) -/

/-- Rust's `str::split(c)` on the character list: every occurrence of
`c` separates two pieces, empty pieces included, so `n` separators yield
`n + 1` pieces. -/
def split_chars (c : Char) : List Char → List (List Char)
  | [] => [[]]
  | ch :: rest =>
    match split_chars c rest with
    | [] => [[]]
    | g :: gs => if ch = c then [] :: g :: gs else (ch :: g) :: gs

/-- Rust's `str::split(c)` as a string operation. -/
def split_on_char (c : Char) (s : String) : List String :=
  (split_chars c s.data).map (fun l => String.mk l)

/-- Rust's `str::trim`: strip leading and trailing whitespace. -/
def trim_str (s : String) : String :=
  String.mk (((s.data.dropWhile Char.isWhitespace).reverse.dropWhile
    Char.isWhitespace).reverse)

/-- `is_builtin` of src/main.rs. -/
def is_builtin (cmd : String) : Option String :=
  match cmd with
  | "pwd" => some "pwd is a shell builtin"
  | "cd" => some "cd is a shell builtin"
  | _ => none

/-- The target-directory computation at the top of `handle_cd`: empty
arguments mean the home directory (defaulted to "/" when undeterminable),
and a leading `~` is replaced by the home directory
(`target.replace_range(0..1, home)`). -/
def cd_target (env : Env) (args : List String) : String :=
  let home_dir := env.homeDir.getD "/"
  match args with
  | [] => home_dir
  | target :: _ =>
    match target.data with
    | '~' :: restChars => home_dir ++ String.mk restChars
    | _ => target

/-- The error-message cleanup in `handle_cd`: split the system error
text on `:`, drop the first piece, rejoin with `:`, trim, and fall back
to "No such file or directory" when the result is empty. -/
def clean_cd_error (e : String) : String :=
  let m := trim_str (String.intercalate ":" ((split_on_char ':' e).drop 1))
  if m = "" then "No such file or directory" else m

/-- `handle_cd` of src/main.rs, with the `CURRENT_DIR` cell threaded as
the last argument and returned.  `handle` is the sink the handler was
given. -/
def handle_cd (env : Env) (args : List String) (handle : Dest) (cur : String) :
    String × List Event :=
  let target_dir := cd_target env args
  match env.cdResult target_dir with
  | some e =>
    (cur, [(handle, "cd: " ++ target_dir ++ ": " ++ clean_cd_error e ++ "\n")])
  | none =>
    (target_dir, [(handle, "Changed directory to: " ++ target_dir ++ "\n")])

/-- `handle_pwd` of src/main.rs: writes the cached `CURRENT_DIR` value to
its sink; the operating system is not consulted. -/
def handle_pwd (_env : Env) (_args : List String) (handle : Dest) (cur : String) :
    String × List Event :=
  (cur, [(handle, cur ++ "\n")])

/-- The type of built-in command handlers (`CmdHandler` of src/main.rs),
with the ambient OS and the `CURRENT_DIR` cell made explicit. -/
def CmdHandler := Env → List String → Dest → String → String × List Event

/-- The `CMD_MAP` registry of src/main.rs. -/
def CMD_MAP : List (String × CmdHandler) :=
  [("cd", handle_cd), ("pwd", handle_pwd)]

/-- Lookup in `CMD_MAP` (the `CMD_MAP.get(cmd)` call). -/
def CMD_MAP_get (cmd : String) : Option CmdHandler :=
  (CMD_MAP.find? (fun p => p.1 = cmd)).map (fun p => p.2)

/-! ## Path resolver (src/main.rs, `check_cmd_in_path`, lines 172-185) -/

/-- `check_cmd_in_path` of src/main.rs: split the PATH variable on `:`,
scan the directories left to right, skip directories that fail to list,
and return the full path of the first entry whose name equals `cmd`. -/
def check_cmd_in_path (env : Env) (cmd : String) : Option String :=
  match env.pathVar with
  | some paths =>
    (split_on_char ':' paths).findSome? fun p =>
      match env.readDir p with
      | some entries =>
        (entries.find? (fun ent => cmd = ent.1)).map (fun ent => ent.2)
      | none => none
  | none => none

/-! ## Dispatcher (src/main.rs, `handle_cmd`, lines 82-169) -/

/-- Models Rust's `Path::file_name` for the ordinary paths produced by
path search: the last non-empty slash-separated component, none for a
path with no component or one ending in `..`. -/
def file_name (p : String) : Option String :=
  match ((split_on_char '/' p).filter (fun s => !(s = ""))).getLast? with
  | none => none
  | some s => if s = ".." then none else some s

/-- Acquisition of the output sink in `handle_cmd`: standard output by
default, otherwise the requested file opened for append or truncation;
on failure, the `eprintln!` diagnostic event that aborts the line. -/
def acquire_out_sink (env : Env) : Option String → Bool → Except Event Dest
  | none, _ => Except.ok Dest.processStdout
  | some f, true =>
    match env.openFile f true with
    | none => Except.ok (Dest.file f true)
    | some e =>
      Except.error (Dest.processStderr,
        "Failed to open output file " ++ f ++ ": " ++ e ++ "\n")
  | some f, false =>
    match env.openFile f false with
    | none => Except.ok (Dest.file f false)
    | some e =>
      Except.error (Dest.processStderr,
        "Failed to create output file " ++ f ++ ": " ++ e ++ "\n")

/-- Acquisition of the error sink in `handle_cmd`, analogous to
`acquire_out_sink` with standard error as the default. -/
def acquire_err_sink (env : Env) : Option String → Bool → Except Event Dest
  | none, _ => Except.ok Dest.processStderr
  | some f, true =>
    match env.openFile f true with
    | none => Except.ok (Dest.file f true)
    | some e =>
      Except.error (Dest.processStderr,
        "Failed to open error file " ++ f ++ ": " ++ e ++ "\n")
  | some f, false =>
    match env.openFile f false with
    | none => Except.ok (Dest.file f false)
    | some e =>
      Except.error (Dest.processStderr,
        "Failed to create error file " ++ f ++ ": " ++ e ++ "\n")

/-- `handle_cmd` of src/main.rs: tokenize, parse redirection, acquire
sinks, then dispatch on the two-tier builtin check, the `CMD_MAP`
lookup, and path search.  The result is `none` when the source would
panic (`args[0]` on an argument vector emptied by redirection parsing),
and otherwise the new `CURRENT_DIR` value together with the write events
of the line in order. -/
def handle_cmd (env : Env) (cur : String) (cmd : String) :
    Option (String × List Event) :=
  let args := handle_quotes cmd
  if args = [] then some (cur, [])
  else
    match parse_redirection args with
    | (args2, output_file, error_file, append_output, append_error) =>
      match args2 with
      | [] => none
      | cmdName :: restArgs =>
        match acquire_out_sink env output_file append_output with
        | Except.error ev => some (cur, [ev])
        | Except.ok outSink =>
          match acquire_err_sink env error_file append_error with
          | Except.error ev => some (cur, [ev])
          | Except.ok errSink =>
            match is_builtin cmdName with
            | some builtin_message =>
              if cmdName ≠ "cd" ∧ cmdName ≠ "pwd" then
                some (cur, [(outSink, builtin_message ++ "\n")])
              else
                some (cur, [])
            | none =>
              match CMD_MAP_get cmdName with
              | some handler => some (handler env restArgs outSink cur)
              | none =>
                match check_cmd_in_path env cmdName with
                | some path =>
                  let cmd_display := (file_name path).getD cmdName
                  match env.runResult cmdName restArgs with
                  | Except.ok oe =>
                    some (cur, [(outSink, oe.1), (errSink, oe.2)])
                  | Except.error e =>
                    some (cur, [(outSink, cmd_display ++ ": " ++ e ++ "\n")])
                | none =>
                  some (cur,
                    [(Dest.processStderr, cmdName ++ ": command not found\n")])

/-- An environment in which every OS call succeeds blandly: used to
instantiate universally quantified theorems at concrete inputs. -/
def env0 : Env :=
  { homeDir := some "/home/u"
    cdResult := fun _ => none
    pathVar := none
    readDir := fun _ => none
    openFile := fun _ _ => none
    runResult := fun _ _ => Except.error "x" }

/-- An environment whose `set_current_dir` always fails with a typical
Rust error text that contains no colon. -/
def envCdFail : Env :=
  { env0 with cdResult := fun _ => some "No such file or directory (os error 2)" }

/-- An environment with a two-directory PATH for exercising the path
resolver. -/
def envPath : Env :=
  { env0 with
    pathVar := some "/a:/b"
    readDir := fun d =>
      if d = "/a" then some [("ls", "/a/ls"), ("cat", "/a/cat")]
      else if d = "/b" then some [("foo", "/b/foo"), ("ls", "/b/ls")]
      else none }

example : handle_cmd env0 "/" "pwd" = some ("/", []) := by decide
example : handle_cmd env0 "/" "cd /tmp" = some ("/", []) := by decide
example : check_cmd_in_path envPath "foo" = some "/b/foo" := by decide
example : check_cmd_in_path envPath "ls" = some "/a/ls" := by decide
example : handle_cmd envPath "/" "nosuch 2> err.txt" =
    some ("/", [(Dest.processStderr, "nosuch: command not found\n")]) := by decide
example : clean_cd_error "No such file or directory (os error 2)" =
    "No such file or directory" := by decide
example : clean_cd_error "error: Permission denied" = "Permission denied" := by decide
example : handle_cd envCdFail ["/nope"] Dest.processStdout "/" =
    ("/", [(Dest.processStdout, "cd: /nope: No such file or directory\n")]) := by decide
example : handle_cd env0 [] Dest.processStdout "/" =
    ("/home/u", [(Dest.processStdout, "Changed directory to: /home/u\n")]) := by decide
example : handle_cd env0 ["~/x"] Dest.processStdout "/" =
    ("/home/u/x", [(Dest.processStdout, "Changed directory to: /home/u/x\n")]) := by decide

/-! ## Lemmas about the redirection parser -/

/-- Scanning a block of non-operator tokens just appends them to the
accumulated argument vector. -/
lemma parse_go_no_ops : ∀ (l : List String), (∀ t ∈ l, ¬ IsRedirOp t) →
    ∀ (ca : List String) (outf errf : Option String) (ao ae : Bool) (rest : List String),
    parse_go ca outf errf ao ae (l ++ rest) = parse_go (ca ++ l) outf errf ao ae rest := by
  intro l
  induction l with
  | nil => intro _ ca outf errf ao ae rest; simp
  | cons t l ih =>
    intro h ca outf errf ao ae rest
    have ht : ¬ IsRedirOp t := h t (by simp)
    have hl : ∀ u ∈ l, ¬ IsRedirOp u := fun u hu => h u (by simp [hu])
    unfold IsRedirOp IsOutOp IsErrOp at ht
    push_neg at ht
    obtain ⟨⟨ht1, ht2, ht3, ht4⟩, ht5, ht6⟩ := ht
    have h1 : ¬ (t = ">" ∨ t = "1>") := by tauto
    have h3 : ¬ (t = ">>" ∨ t = "1>>") := by tauto
    rw [List.cons_append, parse_go.eq_def]
    simp only [if_neg h1, if_neg ht5, if_neg h3, if_neg ht6]
    rw [ih hl]
    simp

/-- A matched output operator with a follower captures the follower as
the output target and leaves the error state alone (the resulting
append-output flag depends on which operator matched). -/
lemma parse_go_out_step : ∀ (op f : String) (rest : List String)
    (ca : List String) (outf errf : Option String) (ao ae : Bool), IsOutOp op →
    ∃ b, parse_go ca outf errf ao ae (op :: f :: rest) =
      parse_go ca (some f) errf b ae rest := by
  intro op f rest ca outf errf ao ae hop
  unfold IsOutOp at hop
  rcases hop with h | h | h | h <;> subst h
  · exact ⟨ao, rfl⟩
  · exact ⟨ao, rfl⟩
  · exact ⟨true, rfl⟩
  · exact ⟨true, rfl⟩

/-- A matched error operator with a follower captures the follower as
the error target and leaves the output state alone. -/
lemma parse_go_err_step : ∀ (op f : String) (rest : List String)
    (ca : List String) (outf errf : Option String) (ao ae : Bool), IsErrOp op →
    ∃ b, parse_go ca outf errf ao ae (op :: f :: rest) =
      parse_go ca outf (some f) ao b rest := by
  intro op f rest ca outf errf ao ae hop
  unfold IsErrOp at hop
  rcases hop with h | h <;> subst h
  · exact ⟨ae, rfl⟩
  · exact ⟨true, rfl⟩

/-- No branch of the scan loop ever resets an append flag: once an
append flag is true going in, it is true coming out. -/
lemma parse_go_flags_mono : ∀ (n : ℕ) (l : List String), l.length ≤ n →
    ∀ (ca : List String) (outf errf : Option String) (ao ae : Bool),
    (ao = true → (parse_go ca outf errf ao ae l).2.2.2.1 = true) ∧
    (ae = true → (parse_go ca outf errf ao ae l).2.2.2.2 = true) := by
  intro n
  induction n with
  | zero =>
    intro l hl ca outf errf ao ae
    have : l = [] := List.length_eq_zero.mp (Nat.le_zero.mp hl)
    subst this
    exact ⟨fun h => h, fun h => h⟩
  | succ n ih =>
    intro l hl ca outf errf ao ae
    match l with
    | [] => exact ⟨fun h => h, fun h => h⟩
    | t :: rest =>
      rw [parse_go.eq_def]
      simp only []
      split_ifs with h1 h2 h3 h4
      · match rest with
        | [] => exact ⟨fun h => h, fun h => h⟩
        | f :: rest2 =>
          have := ih rest2 (by simp at hl ⊢; omega) ca (some f) errf ao ae
          exact this
      · match rest with
        | [] => exact ⟨fun h => h, fun h => h⟩
        | f :: rest2 =>
          exact ih rest2 (by simp at hl ⊢; omega) ca outf (some f) ao ae
      · match rest with
        | [] => exact ⟨fun h => h, fun h => h⟩
        | f :: rest2 =>
          have := ih rest2 (by simp at hl ⊢; omega) ca (some f) errf true ae
          exact ⟨fun _ => this.1 rfl, this.2⟩
      · match rest with
        | [] => exact ⟨fun h => h, fun h => h⟩
        | f :: rest2 =>
          have := ih rest2 (by simp at hl ⊢; omega) ca outf (some f) ao true
          exact ⟨this.1, fun _ => this.2 rfl⟩
      · exact ih rest (by simp at hl; omega) (ca ++ [t]) outf errf ao ae

/-- Claim C3 counterexample: a trailing `>` with no filename does not
appear in the residual command-argument vector — it is dropped. -/
theorem c3_trailing_op_counterexample :
    (parse_redirection ["echo", ">"]).1 = ["echo"] ∧
    ¬ (">" ∈ (parse_redirection ["echo", ">"]).1) := by decide

/-- Claim C3 (amended): for every scan state, a trailing redirection
operator with no following token is silently dropped — the residual
arguments, the captured targets and the append flags are exactly those
accumulated before it, and the operator is neither kept as an argument
nor captured as a target; in particular
`parse_redirection ["echo", "hi", ">"]` keeps only `["echo", "hi"]`. -/
theorem c3_trailing_op_dropped :
    (∀ (ca : List String) (outf errf : Option String) (ao ae : Bool) (op : String),
      IsRedirOp op → parse_go ca outf errf ao ae [op] = (ca, outf, errf, ao, ae)) ∧
    parse_redirection ["echo", "hi", ">"] = (["echo", "hi"], none, none, false, false) := by
  constructor
  · intro ca outf errf ao ae op hop
    unfold IsRedirOp IsOutOp IsErrOp at hop
    rcases hop with (h | h | h | h) | (h | h) <;> subst h <;> rfl
  · decide

/-- Claim C3 witness: the dropped-trailing-operator fact at a concrete
scan state. -/
theorem c3_trailing_op_witness :
    parse_go ["echo"] none none false false ["2>>"] =
      (["echo"], none, none, false, false) :=
  c3_trailing_op_dropped.1 ["echo"] none none false false "2>>"
    (Or.inr (Or.inr rfl))

/-- Claim C4: each recognized operator with a follower captures the
follower as the corresponding target and both disappear from the
residual arguments; repeated operators of the same kind overwrite, so
the last one wins.  Includes the two concrete cases of the claim and the
general last-wins statements for output and error operators. -/
theorem c4_parse_redirection_capture :
    parse_redirection ["echo", "hi", ">", "out.txt"] =
      (["echo", "hi"], some "out.txt", none, false, false) ∧
    parse_redirection ["ls", "2>>", "err.log"] =
      (["ls"], none, some "err.log", false, true) ∧
    (∀ (l1 l2 : List String) (op1 op2 f1 f2 : String),
      IsOutOp op1 → IsOutOp op2 →
      (∀ t ∈ l1, ¬ IsRedirOp t) → (∀ t ∈ l2, ¬ IsRedirOp t) →
      (parse_redirection (l1 ++ (op1 :: f1 :: (l2 ++ [op2, f2])))).1 = l1 ++ l2 ∧
      (parse_redirection (l1 ++ (op1 :: f1 :: (l2 ++ [op2, f2])))).2.1 = some f2) ∧
    (∀ (l1 l2 : List String) (op1 op2 f1 f2 : String),
      IsErrOp op1 → IsErrOp op2 →
      (∀ t ∈ l1, ¬ IsRedirOp t) → (∀ t ∈ l2, ¬ IsRedirOp t) →
      (parse_redirection (l1 ++ (op1 :: f1 :: (l2 ++ [op2, f2])))).1 = l1 ++ l2 ∧
      (parse_redirection (l1 ++ (op1 :: f1 :: (l2 ++ [op2, f2])))).2.2.1 = some f2) := by
  refine ⟨by decide, by decide, ?_, ?_⟩
  · intro l1 l2 op1 op2 f1 f2 hop1 hop2 h1 h2
    unfold parse_redirection
    rw [parse_go_no_ops l1 h1]
    obtain ⟨b1, e1⟩ := parse_go_out_step op1 f1 (l2 ++ [op2, f2]) ([] ++ l1) none none false false hop1
    rw [e1, parse_go_no_ops l2 h2]
    obtain ⟨b2, e2⟩ := parse_go_out_step op2 f2 [] (([] ++ l1) ++ l2) (some f1) none b1 false hop2
    rw [e2]
    simp [parse_go]
  · intro l1 l2 op1 op2 f1 f2 hop1 hop2 h1 h2
    unfold parse_redirection
    rw [parse_go_no_ops l1 h1]
    obtain ⟨b1, e1⟩ := parse_go_err_step op1 f1 (l2 ++ [op2, f2]) ([] ++ l1) none none false false hop1
    rw [e1, parse_go_no_ops l2 h2]
    obtain ⟨b2, e2⟩ := parse_go_err_step op2 f2 [] (([] ++ l1) ++ l2) none (some f1) false b1 hop2
    rw [e2]
    simp [parse_go]

/-- Claim C4 witness: the general last-wins statement instantiated at a
concrete token sequence. -/
theorem c4_parse_redirection_witness :
    (parse_redirection ["echo", ">", "a", "1>", "b"]).1 = ["echo"] ∧
    (parse_redirection ["echo", ">", "a", "1>", "b"]).2.1 = some "b" := by
  have h := c4_parse_redirection_capture.2.2.1 ["echo"] [] ">" "1>" "a" "b"
    (Or.inl rfl) (Or.inr (Or.inl rfl)) (by decide) (by decide)
  simpa using h

/-- Claim C9: the append flags of `parse_redirection` are sticky — once
set by an append operator they survive every later match, so a later
truncating operator overwrites the target filename while append stays
true; in particular `["echo", ">>", "a", ">", "b"]` yields target `b`
with append-output still true. -/
theorem c9_append_flags_sticky :
    parse_redirection ["echo", ">>", "a", ">", "b"] =
      (["echo"], some "b", none, true, false) ∧
    (∀ (l ca : List String) (outf errf : Option String) (ae : Bool),
      (parse_go ca outf errf true ae l).2.2.2.1 = true) ∧
    (∀ (l ca : List String) (outf errf : Option String) (ao : Bool),
      (parse_go ca outf errf ao true l).2.2.2.2 = true) := by
  refine ⟨by decide, ?_, ?_⟩
  · intro l ca outf errf ae
    exact (parse_go_flags_mono l.length l le_rfl ca outf errf true ae).1 rfl
  · intro l ca outf errf ao
    exact (parse_go_flags_mono l.length l le_rfl ca outf errf ao true).2 rfl

/-! ## Lemmas about the tokenizer -/

/-- The loop body either leaves the completed-token list alone or pushes
the (non-empty) accumulator onto it. -/
lemma handle_quotes_step_args (st : QState) (c : Char) :
    (handle_quotes_step st c).args = st.args ∨
    ((handle_quotes_step st c).args = st.args ++ [st.arg] ∧ ¬ (st.arg = "")) := by
  unfold handle_quotes_step
  split_ifs <;> first
    | exact Or.inl rfl
    | (refine Or.inr ⟨rfl, ?_⟩; simp_all)

/-- Pushed tokens stay non-empty across the whole character fold. -/
lemma foldl_quotes_nonempty : ∀ (l : List Char) (st : QState),
    (∀ t ∈ st.args, ¬ (t = "")) →
    ∀ t ∈ (List.foldl handle_quotes_step st l).args, ¬ (t = "") := by
  intro l
  induction l with
  | nil => intro st h; simpa using h
  | cons c l ih =>
    intro st h
    refine ih (handle_quotes_step st c) ?_
    intro t ht
    rcases handle_quotes_step_args st c with ha | ⟨ha, hne⟩
    · exact h t (ha ▸ ht)
    · rw [ha] at ht
      rcases List.mem_append.mp ht with ht2 | ht2
      · exact h t ht2
      · rw [List.mem_singleton.mp ht2]; exact hne

/-- Claim C10: every token produced by the tokenizer is non-empty — a
token is pushed only from a non-empty accumulator, so a quoted empty
string surrounded by whitespace contributes no token; in particular
tokenizing `echo "" x` yields `["echo", "x"]`. -/
theorem c10_tokens_nonempty :
    (∀ (s t : String), t ∈ handle_quotes s → ¬ (t = "")) ∧
    handle_quotes "echo \"\" x" = ["echo", "x"] := by
  constructor
  · intro s t ht
    unfold handle_quotes at ht
    have hinv := foldl_quotes_nonempty s.data
      { args := [], arg := "", insideSingle := false, insideDouble := false,
        backslash := false } (by simp)
    by_cases harg :
        (List.foldl handle_quotes_step
          { args := [], arg := "", insideSingle := false, insideDouble := false,
            backslash := false } s.data).arg = ""
    · rw [if_neg (by simp [harg])] at ht
      exact hinv t ht
    · rw [if_pos (by simp [harg])] at ht
      rcases List.mem_append.mp ht with ht2 | ht2
      · exact hinv t ht2
      · rw [List.mem_singleton.mp ht2]; exact harg
  · decide

/-- Claim C10 witness: the non-emptiness fact applied to a token of a
concrete line. -/
theorem c10_tokens_nonempty_witness : ¬ (("x" : String) = "") :=
  c10_tokens_nonempty.1 "echo \"\" x" "x" (by decide)

/-- Claim C5: in double-quote mode, a pending backslash keeps only the
next character when it is `$`, `"` or backslash and otherwise re-inserts
the backslash before it; a bare backslash sets the pending flag; an
unescaped double quote closes the mode; any other character is literal.
The two concrete lines of the claim tokenize accordingly. -/
theorem c5_double_quote_escapes :
    (∀ (st : QState) (c : Char), st.insideSingle = false →
      st.insideDouble = true → st.backslash = true →
      handle_quotes_step st c =
        if c = '$' ∨ c = '"' ∨ c = '\\' then
          { st with backslash := false, arg := st.arg.push c }
        else
          { st with backslash := false, arg := (st.arg.push '\\').push c }) ∧
    (∀ (st : QState), st.insideSingle = false → st.insideDouble = true →
      st.backslash = false →
      handle_quotes_step st '\\' = { st with backslash := true }) ∧
    (∀ (st : QState), st.insideSingle = false → st.insideDouble = true →
      st.backslash = false →
      handle_quotes_step st '"' = { st with insideDouble := false }) ∧
    (∀ (st : QState) (c : Char), st.insideSingle = false →
      st.insideDouble = true → st.backslash = false → ¬ (c = '\\') → ¬ (c = '"') →
      handle_quotes_step st c = { st with arg := st.arg.push c }) ∧
    handle_quotes "echo \"a\\\"b\"" = ["echo", "a\"b"] ∧
    handle_quotes "echo \"a\\nb\"" = ["echo", "a\\nb"] := by
  refine ⟨?_, ?_, ?_, ?_, by decide, by decide⟩
  · intro st c h1 h2 h3
    obtain ⟨args, arg, s, d, b⟩ := st
    simp only at h1 h2 h3
    subst h1; subst h2; subst h3
    by_cases hc : c = '$' ∨ c = '"' ∨ c = '\\'
    · rw [if_pos hc]
      unfold handle_quotes_step
      simp only [Bool.not_true, Bool.false_and, Bool.and_self, if_false]
      have : ¬ (c ≠ '$' ∧ c ≠ '"' ∧ c ≠ '\\') := by tauto
      simp [this]
    · rw [if_neg hc]
      unfold handle_quotes_step
      push_neg at hc
      obtain ⟨hc1, hc2, hc3⟩ := hc
      have : c ≠ '$' ∧ c ≠ '"' ∧ c ≠ '\\' := ⟨hc1, hc2, hc3⟩
      simp [this]
  · intro st h1 h2 h3
    obtain ⟨args, arg, s, d, b⟩ := st
    simp only at h1 h2 h3
    subst h1; subst h2; subst h3
    unfold handle_quotes_step
    simp
  · intro st h1 h2 h3
    obtain ⟨args, arg, s, d, b⟩ := st
    simp only at h1 h2 h3
    subst h1; subst h2; subst h3
    unfold handle_quotes_step
    simp
  · intro st c h1 h2 h3 hc1 hc2
    obtain ⟨args, arg, s, d, b⟩ := st
    simp only at h1 h2 h3
    subst h1; subst h2; subst h3
    unfold handle_quotes_step
    simp [hc1, hc2]

/-- Claim C5 witness: the pending-backslash rule applied at a concrete
state and character. -/
theorem c5_double_quote_escapes_witness :
    handle_quotes_step
      { args := [], arg := "a", insideSingle := false, insideDouble := true,
        backslash := true } 'n' =
      { args := [], arg := "a\\n", insideSingle := false, insideDouble := true,
        backslash := false } := by
  have h := c5_double_quote_escapes.1
    { args := [], arg := "a", insideSingle := false, insideDouble := true,
      backslash := true } 'n' rfl rfl rfl
  rw [h]
  decide

/-! ## The dispatcher never reaches the built-in handlers -/

/-- Claim C1 (code bug): for the lines `pwd` and `cd /tmp` the
dispatcher takes the `is_builtin` branch, suppresses the message, and
falls out of the dispatch chain without consulting `CMD_MAP` — so it
produces no write events and no state change, even though `handle_pwd`
itself would write the cached directory.  The claim (and the spec) say
the built-in handlers are invoked instead. -/
theorem c1_builtin_handlers_unreachable :
    ∀ (env : Env) (cur : String),
      handle_cmd env cur "pwd" = some (cur, []) ∧
      handle_cmd env cur "cd /tmp" = some (cur, []) ∧
      handle_pwd env [] Dest.processStdout cur =
        (cur, [(Dest.processStdout, cur ++ "\n")]) ∧
      CMD_MAP_get "pwd" = some handle_pwd := by
  intro env cur
  exact ⟨rfl, rfl, rfl, rfl⟩

/-- Claim C2 (code bug): even when the operating system would accept the
directory change, processing `cd /tmp` leaves the cached directory
untouched and writes nothing, and the following `pwd` line also writes
nothing — in particular it does not write `/tmp`. -/
theorem c2_pwd_after_cd_writes_nothing :
    ∀ (env : Env) (cur : String), env.cdResult "/tmp" = none →
      handle_cmd env cur "cd /tmp" = some (cur, []) ∧
      handle_cmd env cur "pwd" = some (cur, []) := by
  intro env cur _
  exact ⟨rfl, rfl⟩

/-- Claim C2 witness: the two-line scenario at a concrete environment
whose `set_current_dir` succeeds. -/
theorem c2_pwd_after_cd_witness :
    handle_cmd env0 "/" "cd /tmp" = some ("/", []) ∧
    handle_cmd env0 "/" "pwd" = some ("/", []) :=
  c2_pwd_after_cd_writes_nothing env0 "/" rfl

/-! ## The change-directory failure path -/

/-- Claim C7: when the set-current-directory call fails, `handle_cd`
writes `cd: <target>: <reason>` to the sink it was handed (the output
sink at its call site), substitutes "No such file or directory" whenever
the system error text is empty after stripping its prefix, and leaves
the cached directory state unchanged. -/
theorem c7_cd_failure_diagnostic :
    (∀ (env : Env) (args : List String) (d : Dest) (cur e : String),
      env.cdResult (cd_target env args) = some e →
      handle_cd env args d cur =
        (cur, [(d, "cd: " ++ cd_target env args ++ ": " ++ clean_cd_error e ++ "\n")])) ∧
    (∀ e : String,
      trim_str (String.intercalate ":" ((split_on_char ':' e).drop 1)) = "" →
      clean_cd_error e = "No such file or directory") := by
  constructor
  · intro env args d cur e h
    simp only [handle_cd]
    rw [h]
  · intro e h
    simp only [clean_cd_error]
    rw [h]
    rfl

/-- Claim C7 witness: a concrete failing `cd`, with an error text whose
prefix-stripped remainder is empty, so the substitute reason appears;
the state is unchanged and the write goes to the handed sink. -/
theorem c7_cd_failure_witness :
    handle_cd envCdFail ["/nope"] Dest.processStdout "/" =
      ("/", [(Dest.processStdout, "cd: /nope: No such file or directory\n")]) := by
  have h := c7_cd_failure_diagnostic.1 envCdFail ["/nope"] Dest.processStdout "/"
    "No such file or directory (os error 2)" rfl
  rw [h]
  decide

/-! ## Path resolution -/

/-- An early-return scan is the head of the list of all produces. -/
lemma findSome?_eq_head?_filterMap {α β : Type} (f : α → Option β) :
    ∀ l : List α, l.findSome? f = (l.filterMap f).head? := by
  intro l
  induction l with
  | nil => rfl
  | cons a l ih =>
    cases hfa : f a with
    | none => rw [List.findSome?_cons, List.filterMap_cons, hfa, ih]
    | some b => rw [List.findSome?_cons, List.filterMap_cons, hfa]; rfl

/-- Claim C8: `check_cmd_in_path` is none when the PATH variable is
unreadable, and otherwise returns the first match produced by scanning
the `:`-separated directories left to right — a directory that fails to
list produces nothing (it is skipped), a listable directory produces the
full path of its first entry whose name equals the command, and the
overall result is the head of that left-to-right stream of matches
(none when it is empty).  Entries carry no file-type or permission
information: no executability or regular-file check exists. -/
theorem c8_path_resolution_first_match :
    ∀ (env : Env) (cmd : String),
      (env.pathVar = none → check_cmd_in_path env cmd = none) ∧
      (∀ pv, env.pathVar = some pv →
        check_cmd_in_path env cmd =
          ((split_on_char ':' pv).filterMap (fun p =>
            match env.readDir p with
            | some entries =>
              (entries.find? (fun ent => cmd = ent.1)).map (fun ent => ent.2)
            | none => none)).head?) := by
  intro env cmd
  constructor
  · intro h
    unfold check_cmd_in_path
    rw [h]
  · intro pv h
    unfold check_cmd_in_path
    rw [h]
    exact findSome?_eq_head?_filterMap _ _

/-- Claim C8 witness: a concrete two-directory PATH in which the first
directory fails to produce the command and the second supplies it; the
first matching entry of the scan wins. -/
theorem c8_path_resolution_witness :
    check_cmd_in_path envPath "foo" = some "/b/foo" := by
  have h := (c8_path_resolution_first_match envPath "foo").2 "/a:/b" rfl
  rw [h]
  decide

/-! ## Command-not-found reporting -/

/-- Claim C6: when the command name of a line is no reserved keyword, is
absent from `CMD_MAP`, and path search fails — and the requested
redirection sinks open fine — the dispatcher emits exactly one write:
`<command>: command not found` to the process standard error stream.
The error-redirection target, even when present, is bypassed, and the
output sink receives nothing. -/
theorem c6_command_not_found (env : Env) (cur line name : String)
    (restArgs : List String) (outf errf : Option String) (ao ae : Bool)
    (hparse : parse_redirection (handle_quotes line) =
      (name :: restArgs, outf, errf, ao, ae))
    (hbuiltin : is_builtin name = none)
    (hmap : CMD_MAP_get name = none)
    (hpath : check_cmd_in_path env name = none)
    (hout : ∀ f, outf = some f → env.openFile f ao = none)
    (herr : ∀ f, errf = some f → env.openFile f ae = none) :
    handle_cmd env cur line =
      some (cur, [(Dest.processStderr, name ++ ": command not found\n")]) := by
  have hne : ¬ (handle_quotes line = []) := by
    intro h0
    rw [h0] at hparse
    simp [parse_redirection, parse_go] at hparse
  have hosink : ∃ oS, acquire_out_sink env outf ao = Except.ok oS := by
    cases outf with
    | none => exact ⟨Dest.processStdout, rfl⟩
    | some f =>
      have hf := hout f rfl
      cases ao with
      | false => exact ⟨Dest.file f false, by simp [acquire_out_sink, hf]⟩
      | true => exact ⟨Dest.file f true, by simp [acquire_out_sink, hf]⟩
  have hesink : ∃ eS, acquire_err_sink env errf ae = Except.ok eS := by
    cases errf with
    | none => exact ⟨Dest.processStderr, rfl⟩
    | some f =>
      have hf := herr f rfl
      cases ae with
      | false => exact ⟨Dest.file f false, by simp [acquire_err_sink, hf]⟩
      | true => exact ⟨Dest.file f true, by simp [acquire_err_sink, hf]⟩
  obtain ⟨oS, hoS⟩ := hosink
  obtain ⟨eS, heS⟩ := hesink
  unfold handle_cmd
  rw [if_neg hne, hparse]
  simp only [hoS, heS, hbuiltin, hmap, hpath]

/-- Claim C6 witness: an unresolvable command with an error-redirection
target that opens fine; the not-found message still lands on the process
standard error stream and nothing reaches the sinks. -/
theorem c6_command_not_found_witness :
    handle_cmd envPath "/" "nosuch 2> err.txt" =
      some ("/", [(Dest.processStderr, "nosuch: command not found\n")]) := by
  refine c6_command_not_found envPath "/" "nosuch 2> err.txt" "nosuch" []
    none (some "err.txt") false false (by decide) rfl rfl (by decide) ?_ ?_
  · intro f hf; exact Option.noConfusion hf
  · intro f hf
    have : f = "err.txt" := (Option.some.injEq _ _ ▸ hf).symm
    subst this
    rfl
